import Mathlib

/-!
Verification of the claude-workflow guard hooks.

The repository consists of six independent Python hook scripts, each a
single-shot classifier: it reads one JSON event from stdin, applies a fixed
pattern rule set to the event file path and content, prints findings and
terminates with exit status 0 (allow) or 2 (block).

This file is a shallow embedding of those scripts.  Text is modelled as
`String` (Lean strings are lists of unicode scalar values, matching Python
`str` as a sequence of code points); `\s`, `\w`, `.lower()` are modelled over
the ASCII range, which covers every pattern and message in the rule sets.
A classifier `main` is a function from the parsed stdin event (`Option Event`,
`none` standing for malformed JSON, whose top-level `except` handler converts
it to a silent exit 0) to the pair (printed lines, exit status).  Scripts that
consult the environment (clock, git, filesystem, subprocesses) take an explicit
environment record for those results.
-/

/-! ## Character and list-of-character utilities -/

/-- The apostrophe character (used in messages and pattern classes). -/
def squote : Char := Char.ofNat 39

/-- ASCII lowercase conversion, modelling Python `str.lower` on the ASCII
range (all rule-set patterns and the inputs of interest are ASCII). -/
def lowerCh (c : Char) : Char :=
  if 65 ≤ c.toNat ∧ c.toNat ≤ 90 then Char.ofNat (c.toNat + 32) else c

/-- ASCII whitespace, modelling the regex class `\s`. -/
def isSpaceCh (c : Char) : Bool :=
  c = ' ' || c = '\t' || c = '\n' || c = '\x0d' || c = '\x0b' || c = '\x0c'

/-- ASCII decimal digit. -/
def isDigitCh (c : Char) : Bool :=
  48 ≤ c.toNat && c.toNat ≤ 57

/-- ASCII letter or digit, the class `[a-zA-Z0-9]`. -/
def isAlnumCh (c : Char) : Bool :=
  (97 ≤ c.toNat && c.toNat ≤ 122) || (65 ≤ c.toNat && c.toNat ≤ 90) || isDigitCh c

/-- The regex word class `\w` (ASCII model). -/
def isWordCh (c : Char) : Bool :=
  isAlnumCh c || c = '_'

/-- The class `[a-zA-Z0-9_-]` used by several secret patterns. -/
def isKeyCh (c : Char) : Bool :=
  isAlnumCh c || c = '_' || c = '-'

/-- The class `[a-zA-Z0-9/+=]` of the AWS secret-key pattern. -/
def isAwsValCh (c : Char) : Bool :=
  isAlnumCh c || c = '/' || c = '+' || c = '='

/-- A double or single quote, the class `["\x27]`. -/
def isQuoteCh (c : Char) : Bool :=
  c = '"' || c = squote

/-- Lowercase every character (Python `str.lower`, ASCII model). -/
def lowerL (s : List Char) : List Char := s.map lowerCh

/-- All suffixes of a list, longest first (the scan positions of a regex
search; the final `[]` is the end-of-string position). -/
def suffixesL : List Char → List (List Char)
  | [] => [[]]
  | c :: cs => (c :: cs) :: suffixesL cs

/-- Does `m` accept some suffix of `s`?  This is the existence semantics of
`re.search`: a match may start at any position of the string. -/
def existsAt (m : List Char → Bool) : List Char → Bool
  | [] => m []
  | c :: cs => m (c :: cs) || existsAt m cs

/-- Strip a literal from the front (case sensitive); `none` if it is not
there, otherwise the rest of the string. -/
def stripLit : List Char → List Char → Option (List Char)
  | [], s => some s
  | _ :: _, [] => none
  | p :: ps, c :: cs => if c = p then stripLit ps cs else none

/-- Strip a literal given in lowercase from the front, case-insensitively
(the `(?i)` patterns). -/
def stripCI : List Char → List Char → Option (List Char)
  | [], s => some s
  | _ :: _, [] => none
  | p :: ps, c :: cs => if lowerCh c = p then stripCI ps cs else none

/-- Drop leading regex whitespace (`\s*`, greedy). -/
def skipSpaces (s : List Char) : List Char := s.dropWhile isSpaceCh

/-- Length of the leading run of characters satisfying `f` (the greedy count
consumed by a character-class repetition). -/
def countClass (f : Char → Bool) (s : List Char) : Nat := (s.takeWhile f).length

/-- Consume exactly `n` characters satisfying `f` (a `{n}` repetition in the
middle of a pattern); `none` if fewer are available. -/
def takeExact (f : Char → Bool) : Nat → List Char → Option (List Char)
  | 0, s => some s
  | _ + 1, [] => none
  | n + 1, c :: cs => if f c then takeExact f n cs else none

/-- Consume one optional `[_-]` separator. -/
def optSep : List Char → List Char
  | [] => []
  | c :: cs => if c = '_' || c = '-' then cs else c :: cs

/-- Consume one optional opening quote. -/
def optQuote : List Char → List Char
  | [] => []
  | c :: cs => if isQuoteCh c then cs else c :: cs

/-- Consume `\s*[:=]\s*` (the key/value separator of the secret patterns);
the character classes are disjoint, so the greedy parse is exact. -/
def afterKV (s : List Char) : Option (List Char) :=
  match skipSpaces s with
  | [] => none
  | c :: cs => if c = ':' || c = '=' then some (skipSpaces cs) else none

/-- Substring test: `needle` occurs somewhere in `hay` (Python `in`). -/
def containsL (needle hay : List Char) : Bool :=
  existsAt (fun s => needle.isPrefixOf s) hay

/-- The part after the last `/` (POSIX `os.path.basename`). -/
def basenameL (s : List Char) : List Char :=
  (s.reverse.takeWhile (fun c => c ≠ '/')).reverse

/-- The suffix starting at the last `.` of a list, or `[]` if there is no
dot; helper for `splitextL`. -/
def lastDotSuffix (l : List Char) : List Char :=
  l.foldl (fun acc c => if c = '.' then [c] else if acc = [] then [] else acc ++ [c]) []

/-- The extension as returned by `os.path.splitext(p)[1]`: the suffix of the
basename from its last dot, except that dots leading the basename do not
start an extension (`.env` has no extension, `.env.production` has
`.production`). -/
def splitextL (p : List Char) : List Char :=
  lastDotSuffix ((basenameL p).dropWhile (fun c => c = '.'))

/-- UTF-8 byte count of one unicode scalar value. -/
def utf8Bytes (c : Char) : Nat :=
  if c.toNat < 128 then 1 else if c.toNat < 2048 then 2
  else if c.toNat < 65536 then 3 else 4

/-- UTF-8 byte length of a string, modelling `len(content.encode("utf-8"))`
(Lean `Char` is a unicode scalar value, so the `errors="replace"` fallback of
the source never fires in the model). -/
def utf8Len (s : List Char) : Nat := (s.map utf8Bytes).sum

/-! ## String-level wrappers -/

/-- Python `os.path.basename`. -/
def basenameStr (s : String) : String := ⟨basenameL s.data⟩

/-- Python `os.path.splitext(p)[1]`. -/
def splitextStr (s : String) : String := ⟨splitextL s.data⟩

/-- Python `str.lower` (ASCII model). -/
def lowerStr (s : String) : String := ⟨lowerL s.data⟩

/-- Python `needle in hay` on strings. -/
def containsStr (needle hay : String) : Bool := containsL needle.data hay.data

/-- Python `a or b` on strings: `a` if non-empty (truthy), else `b`. -/
def pyOr (a b : String) : String := if a = "" then b else a

/-! ## The input event

A hook event is the JSON object read from stdin.  The scripts consult only
`tool_input.file_path`, `tool_input.content` and `tool_input.new_string`;
other payload fields (modelled here by `tool_name` and `old_string`) are
ignored.  An absent field is `none`; `dict.get(k, "")` is `Option.getD`. -/

structure ToolInput where
  file_path : Option String
  content : Option String
  new_string : Option String
  old_string : Option String

structure Event where
  tool_name : Option String
  tool_input : ToolInput

/-- Python `tool_input.get("file_path", "")`. -/
def effPath (ev : Event) : String := ev.tool_input.file_path.getD ""

/-- Python `tool_input.get("content", "") or tool_input.get("new_string", "")`. -/
def effContent (ev : Event) : String :=
  pyOr (ev.tool_input.content.getD "") (ev.tool_input.new_string.getD "")

/-! ## protect-files.py -/

/-- The `(pattern, reason)` table `PROTECTED_PATTERNS_WITH_REASONS`. -/
def PROTECTED_PATTERNS_WITH_REASONS : List (String × String) :=
  [("package-lock.json", "Lock files should be updated via package manager (npm install), not edited directly"),
   ("yarn.lock", "Lock files should be updated via package manager (yarn install), not edited directly"),
   ("pnpm-lock.yaml", "Lock files should be updated via package manager (pnpm install), not edited directly"),
   ("Gemfile.lock", "Lock files should be updated via package manager (bundle install), not edited directly"),
   ("poetry.lock", "Lock files should be updated via package manager (poetry lock), not edited directly"),
   ("Cargo.lock", "Lock files should be updated via package manager (cargo update), not edited directly"),
   (".env", ".env files contain secrets — edit manually outside of Claude Code"),
   (".env.local", ".env files contain secrets — edit manually outside of Claude Code"),
   (".env.production", ".env files contain secrets — edit manually outside of Claude Code"),
   ("**/secrets/*", "Secrets directory contains sensitive data — manage outside of Claude Code"),
   ("**/credentials/*", "Credentials directory contains sensitive data — manage outside of Claude Code"),
   (".git/*", ".git directory is managed by Git — never edit directly")]

/-- The flat pattern list `PROTECTED_PATTERNS`. -/
def PROTECTED_PATTERNS : List String :=
  PROTECTED_PATTERNS_WITH_REASONS.map (fun q => q.1)

/-- The dict `PROTECTED_REASONS` with its `.get(blocked, default)` lookup. -/
def PROTECTED_REASONS (p : String) : String :=
  ((PROTECTED_PATTERNS_WITH_REASONS.find? (fun q => q.1 = p)).map (fun q => q.2)).getD
    "This file is protected from edits"

/-- The warn-only pattern list `WARN_PATTERNS`. -/
def WARN_PATTERNS : List String :=
  [".github/workflows/*", "docker-compose.yml", "Dockerfile", "**/production/*"]

/-- Python `fnmatch.fnmatch` on POSIX (identity `normcase`): `*` matches any
character run (including `/`), `?` any single character, other characters
match themselves.  The rule sets use only literals and `*`. -/
def globMatch : List Char → List Char → Bool
  | [], s => s.isEmpty
  | p :: ps, s =>
    if p = '*' then (suffixesL s).any (fun t => globMatch ps t)
    else
      match s with
      | [] => false
      | c :: cs => (p = '?' || p = c) && globMatch ps cs

/-- Python `file_path.lstrip("./")`: removes every leading `.` and `/` character
(a character-set strip, not a prefix strip). -/
def lstripDotSlash (s : List Char) : List Char :=
  s.dropWhile (fun c => c = '.' || c = '/')

/-- Source `matches_pattern(file_path, patterns)`: the first pattern (in list order)
that `fnmatch`-matches the dot/slash-stripped path or its basename. -/
def matches_pattern (file_path : String) (patterns : List String) : Option String :=
  let fp := lstripDotSlash file_path.data
  patterns.find? (fun p => globMatch p.data fp || globMatch p.data (basenameL fp))

/-- The four lines printed when a protected pattern matches. -/
def protectBlockLines (fp pat : String) : List String :=
  ["BLOCKED: " ++ fp,
   "   Matches protected pattern: " ++ pat,
   "   Reason: " ++ PROTECTED_REASONS pat,
   "   Use --force if this is intentional"]

/-- The two lines printed when only a warn pattern matches. -/
def protectWarnLines (fp pat : String) : List String :=
  ["⚠️ WARNING: Editing sensitive file: " ++ fp,
   "   Matches pattern: " ++ pat]

/-- Function `main` of protect-files.py as (printed lines, exit status); `none` is a
stdin payload that failed to parse (the top-level `except` exits 0). -/
def protectMain (inp : Option Event) : List String × Nat :=
  match inp with
  | none => ([], 0)
  | some ev =>
    let fp := effPath ev
    if fp = "" then ([], 0)
    else
      match matches_pattern fp PROTECTED_PATTERNS with
      | some blocked => (protectBlockLines fp blocked, 2)
      | none =>
        match matches_pattern fp WARN_PATTERNS with
        | some warned => (protectWarnLines fp warned, 0)
        | none => ([], 0)

/-! ## security-check.py

Each entry of `SECRET_PATTERNS` is `(matcher, secret_type, remediation)`.
The matcher is the translation of the source regex into an anchored scanner:
`existsAt matcher content` is `re.search` (and the truthiness of
`re.findall`).  At every decision point of these regexes the adjacent
character classes are disjoint, so the greedy deterministic parse below has
exactly the backtracking search semantics. -/

/-- Pattern `(?i)(api[_-]?key|apikey)\s*[:=]\s*["\x27]?[a-zA-Z0-9_-]{20,}` at one
position (the `apikey` alternative is `api[_-]?key` with no separator). -/
def apiKeyAt (s : List Char) : Bool :=
  match stripCI "api".data s with
  | none => false
  | some s1 =>
    match stripCI "key".data (optSep s1) with
    | none => false
    | some s2 =>
      match afterKV s2 with
      | none => false
      | some s3 => 20 ≤ countClass isKeyCh (optQuote s3)

/-- Pattern `["\x27][^"\x27]+["\x27]`: an opening quote, at least one non-quote
character, then a closing quote (of either kind). -/
def quotedVal (s : List Char) : Bool :=
  match s with
  | [] => false
  | c :: cs =>
    isQuoteCh c &&
      (let run := cs.takeWhile (fun d => !isQuoteCh d)
       decide (run ≠ []) &&
         (match cs.dropWhile (fun d => !isQuoteCh d) with
          | d :: _ => isQuoteCh d
          | [] => false))

/-- Pattern `(?i)(secret|password|passwd|pwd)\s*[:=]\s*["\x27][^"\x27]+["\x27]` at
one position. -/
def pwdSecretAt (s : List Char) : Bool :=
  ["secret", "password", "passwd", "pwd"].any (fun k =>
    match stripCI k.data s with
    | none => false
    | some s1 =>
      match afterKV s1 with
      | none => false
      | some s2 => quotedVal s2)

/-- Pattern `(?i)bearer\s+[a-zA-Z0-9_-]{20,}` at one position. -/
def bearerAt (s : List Char) : Bool :=
  match stripCI "bearer".data s with
  | none => false
  | some s1 =>
    match s1 with
    | [] => false
    | c :: cs => isSpaceCh c && 20 ≤ countClass isKeyCh (skipSpaces cs)

/-- Pattern `ghp_[a-zA-Z0-9]{36}` at one position. -/
def ghpAt (s : List Char) : Bool :=
  match stripLit "ghp_".data s with
  | none => false
  | some r => 36 ≤ countClass isAlnumCh r

/-- Pattern `github_pat_[a-zA-Z0-9]{22}_[a-zA-Z0-9]{59}` at one position (an exact
`{22}` count: the 23rd character must be the underscore). -/
def githubPatAt (s : List Char) : Bool :=
  match stripLit "github_pat_".data s with
  | none => false
  | some r =>
    match takeExact isAlnumCh 22 r with
    | none => false
    | some r2 =>
      match r2 with
      | [] => false
      | c :: r3 => c = '_' && 59 ≤ countClass isAlnumCh r3

/-- Pattern `sk-[a-zA-Z0-9]{48}` at one position. -/
def skAt (s : List Char) : Bool :=
  match stripLit "sk-".data s with
  | none => false
  | some r => 48 ≤ countClass isAlnumCh r

/-- Pattern `sk-ant-[a-zA-Z0-9-]{90,}` at one position. -/
def skAntAt (s : List Char) : Bool :=
  match stripLit "sk-ant-".data s with
  | none => false
  | some r => 90 ≤ countClass (fun c => isAlnumCh c || c = '-') r

/-- Pattern `-----BEGIN (?:RSA |EC |DSA )?PRIVATE KEY-----` at one position. -/
def privateKeyAt (s : List Char) : Bool :=
  ["RSA ", "EC ", "DSA ", ""].any (fun o =>
    match stripLit ("-----BEGIN " ++ o ++ "PRIVATE KEY-----").data s with
    | some _ => true
    | none => false)

/-- Pattern `(?i)aws[_-]?access[_-]?key[_-]?id\s*[:=]\s*[A-Z0-9]{20}` at one
position; the `(?i)` flag makes the final class case-insensitive too. -/
def awsAccessAt (s : List Char) : Bool :=
  match stripCI "aws".data s with
  | none => false
  | some s1 =>
    match stripCI "access".data (optSep s1) with
    | none => false
    | some s2 =>
      match stripCI "key".data (optSep s2) with
      | none => false
      | some s3 =>
        match stripCI "id".data (optSep s3) with
        | none => false
        | some s4 =>
          match afterKV s4 with
          | none => false
          | some s5 => 20 ≤ countClass isAlnumCh s5

/-- Pattern `(?i)aws[_-]?secret[_-]?access[_-]?key\s*[:=]\s*[a-zA-Z0-9/+=]{40}` at
one position. -/
def awsSecretAt (s : List Char) : Bool :=
  match stripCI "aws".data s with
  | none => false
  | some s1 =>
    match stripCI "secret".data (optSep s1) with
    | none => false
    | some s2 =>
      match stripCI "access".data (optSep s2) with
      | none => false
      | some s3 =>
        match stripCI "key".data (optSep s3) with
        | none => false
        | some s4 =>
          match afterKV s4 with
          | none => false
          | some s5 => 40 ≤ countClass isAwsValCh s5

/-- Table `SECRET_PATTERNS`: `(matcher, secret_type, remediation)` in source
order. -/
def SECRET_PATTERNS : List ((List Char → Bool) × String × String) :=
  [(apiKeyAt, "API key", "Move to .env file and use environment variables (e.g., process.env.API_KEY)"),
   (pwdSecretAt, "Password/Secret", "Use environment variables or a .env file, never hardcode credentials"),
   (bearerAt, "Bearer token", "Move to .env file and use environment variables (e.g., process.env.AUTH_TOKEN)"),
   (ghpAt, "GitHub Personal Access Token", "Move to .env file and use environment variables (e.g., process.env.GITHUB_TOKEN)"),
   (githubPatAt, "GitHub PAT (fine-grained)", "Move to .env file and use environment variables (e.g., process.env.GITHUB_TOKEN)"),
   (skAt, "OpenAI API Key", "Move to .env file and use environment variables (e.g., process.env.OPENAI_API_KEY)"),
   (skAntAt, "Anthropic API Key", "Move to .env file and use environment variables (e.g., process.env.ANTHROPIC_API_KEY)"),
   (privateKeyAt, "Private key", "Store in a secrets manager (AWS Secrets Manager, Vault, etc.) — never commit private keys"),
   (awsAccessAt, "AWS Access Key", "Move to .env file and use environment variables (e.g., process.env.AWS_ACCESS_KEY_ID)"),
   (awsSecretAt, "AWS Secret Key", "Move to .env file and use environment variables (e.g., process.env.AWS_SECRET_ACCESS_KEY)")]

/-- The set `SKIP_FILES` of basenames never scanned for secrets. -/
def SKIP_FILES : List String :=
  [".env.example", ".env.template", ".env.sample",
   "package-lock.json", "yarn.lock", "pnpm-lock.yaml"]

/-- Source `check_for_secrets(content, file_path)`: the ordered findings, or `[]`
when the file is exempt (basename in `SKIP_FILES`, or the lowercased path
contains `test` or `spec`). -/
def check_for_secrets (content file_path : String) : List String :=
  if SKIP_FILES.contains (basenameStr file_path) then []
  else if containsStr "test" (lowerStr file_path) || containsStr "spec" (lowerStr file_path) then []
  else
    (SECRET_PATTERNS.filter (fun t => existsAt t.1 content.data)).map
      (fun t => "Potential " ++ t.2.1 ++ " detected → " ++ t.2.2)

/-- The lines printed by security-check.py when it blocks. -/
def securityBlockLines (fp : String) (issues : List String) : List String :=
  ("🚫 BLOCKED - Security issue detected in " ++ fp ++ ":") ::
    issues.map (fun i => "  - " ++ i) ++
    ["\nThis edit has been BLOCKED to prevent committing secrets.",
     "If this is a false positive, review and adjust the patterns in security-check.py",
     "See security-patterns skill for secure credential management."]

/-- Function `main` of security-check.py as (printed lines, exit status). -/
def securityMain (inp : Option Event) : List String × Nat :=
  match inp with
  | none => ([], 0)
  | some ev =>
    let fp := effPath ev
    let content := effContent ev
    if fp = "" ∨ content = "" then ([], 0)
    else
      let issues := check_for_secrets content fp
      if issues = [] then ([], 0)
      else (securityBlockLines fp issues, 2)

/-! ## pre-commit-check.py

A debug/marker matcher checks one scan position; it receives the character
preceding the position (`none` at the start of the string) so that the `\b`
word boundaries can be evaluated.  The literal part is tested first and the
boundary conditions second — the conjunction is unordered in the regex. -/

/-- Boundary `\b` before a word character: the previous character, if any, is not a
word character. -/
def noWordBefore : Option Char → Bool
  | none => true
  | some c => !isWordCh c

/-- Boundary `\b` after a word character: the next character, if any, is not a word
character. -/
def noWordAfter : List Char → Bool
  | [] => true
  | c :: _ => !isWordCh c

/-- Pattern `\b<lit>\s*\(` at one position, for a literal starting and ending in word
characters (`console\.log\s*\(` and friends; the escaped dot is a literal). -/
def litParenAt (lit : String) (prev : Option Char) (s : List Char) : Bool :=
  (match stripLit lit.data s with
   | none => false
   | some r =>
     match skipSpaces r with
     | c :: _ => c = '('
     | [] => false) &&
  noWordBefore prev

/-- Pattern `\b<lit>\b` at one position (`debugger`, `FIXME`, `HACK`, `XXX`). -/
def wordBothAt (lit : String) (prev : Option Char) (s : List Char) : Bool :=
  (match stripLit lit.data s with
   | none => false
   | some r => noWordAfter r) &&
  noWordBefore prev

/-- Model of `re.search` for a boundary-aware matcher: try every position, feeding
each its preceding character. -/
def searchB (m : Option Char → List Char → Bool) : Option Char → List Char → Bool
  | prev, [] => m prev []
  | prev, c :: cs => m prev (c :: cs) || searchB m (some c) cs

/-- Table `DEBUG_PATTERNS`: `(matcher, name, suggestion)` in source order. -/
def DEBUG_PATTERNS : List ((Option Char → List Char → Bool) × String × String) :=
  [(litParenAt "console.log", "console.log", "Remove before commit, or use a proper logger (e.g., winston, pino)"),
   (litParenAt "console.debug", "console.debug", "Remove before commit, or use a proper logger (e.g., winston, pino)"),
   (wordBothAt "debugger", "debugger statement", "Remove before commit — debugger statements pause execution in production"),
   (litParenAt "breakpoint", "breakpoint()", "Remove before commit — use a conditional breakpoint or logging instead"),
   (litParenAt "pdb.set_trace", "pdb.set_trace()", "Remove before commit, or use a proper logger (e.g., logging module)")]

/-- Table `TEMP_MARKERS`: `(matcher, name, suggestion)` in source order. -/
def TEMP_MARKERS : List ((Option Char → List Char → Bool) × String × String) :=
  [(wordBothAt "FIXME", "FIXME", "Address the issue or convert to a tracked GitHub issue"),
   (wordBothAt "HACK", "HACK", "Refactor the workaround or document why it is necessary in a comment"),
   (wordBothAt "XXX", "XXX", "Resolve the concern or convert to a tracked GitHub issue")]

/-- Constant `MAX_CONTENT_SIZE = 500 * 1024`. -/
def MAX_CONTENT_SIZE : Nat := 500 * 1024

/-- Constant `SKIP_EXTENSIONS`. -/
def SKIP_EXTENSIONS : List String :=
  [".md", ".markdown", ".txt", ".rst", ".json", ".yml", ".yaml"]

/-- Source `should_skip(file_path)`: the quality-check eligibility filter. -/
def should_skip (file_path : String) : Bool :=
  let b := lowerStr (basenameStr file_path)
  let ext := lowerStr (splitextStr file_path)
  SKIP_EXTENSIONS.contains ext ||
  (containsStr "test" b || containsStr "spec" b) ||
  (let pl := lowerStr file_path
   (containsStr "/tests/" pl || containsStr "/test/" pl || containsStr "/__tests__/" pl) ||
   (containsStr "example" pl || containsStr "/examples/" pl))

/-- The size finding text, with the size in KiB computed by integer
division. -/
def largeMsg (size : Nat) : String :=
  "Large file content: " ++ toString (size / 1024) ++ "KB (limit: " ++
    toString (MAX_CONTENT_SIZE / 1024) ++
    "KB) → Consider splitting into smaller modules or extracting data"

/-- Source `check_content(content)`: ordered findings — debug statements, then
temporary markers, then the size check. -/
def check_content (content : String) : List String :=
  (DEBUG_PATTERNS.filter (fun t => searchB t.1 none content.data)).map
    (fun t => "Debug statement found: " ++ t.2.1 ++ " → " ++ t.2.2) ++
  (TEMP_MARKERS.filter (fun t => searchB t.1 none content.data)).map
    (fun t => "Temporary marker found: " ++ t.2.1 ++ " → " ++ t.2.2) ++
  (if MAX_CONTENT_SIZE < utf8Len content.data
   then [largeMsg (utf8Len content.data)] else [])

/-- Function `main` of pre-commit-check.py as (printed lines, exit status); it warns
(exit 0) and never blocks. -/
def precommitMain (inp : Option Event) : List String × Nat :=
  match inp with
  | none => ([], 0)
  | some ev =>
    let fp := effPath ev
    let content := effContent ev
    if content = "" then ([], 0)
    else if fp ≠ "" ∧ should_skip fp = true then ([], 0)
    else
      let issues := check_content content
      if issues = [] then ([], 0)
      else ("Quality check - issues detected:" :: issues.map (fun i => "  - " ++ i) ++
            ["\nConsider resolving before committing."], 0)

/-! ## Further text helpers for the environment-reading hooks -/

/-- Python `str.strip()` (ASCII whitespace model). -/
def stripWs (l : List Char) : List Char :=
  ((l.dropWhile isSpaceCh).reverse.dropWhile isSpaceCh).reverse

/-- Python `s.split(sep)` for a one-character separator: always returns at
least one (possibly empty) piece. -/
def splitOnCh (sep : Char) : List Char → List (List Char)
  | [] => [[]]
  | c :: cs =>
    match splitOnCh sep cs with
    | [] => [[]]
    | h :: t => if c = sep then [] :: h :: t else (c :: h) :: t

/-- Helper for `splitWsRuns`: `cur` is the reversed token being read. -/
def splitWsAux : List Char → List Char → List (List Char)
  | cur, [] => if cur = [] then [] else [cur.reverse]
  | cur, c :: cs =>
    if isSpaceCh c then
      if cur = [] then splitWsAux [] cs else cur.reverse :: splitWsAux [] cs
    else splitWsAux (c :: cur) cs

/-- Python `s.split()` with no separator: split on whitespace runs, dropping
empty pieces. -/
def splitWsRuns (l : List Char) : List (List Char) := splitWsAux [] l

/-- Python `int(token)` on a whitespace-free token: an optional sign followed
by at least one digit (digit-group underscores are not modelled); `none` is
the `ValueError` case. -/
def parseIntL (l : List Char) : Option Int :=
  let core : List Char → Option Nat := fun ds =>
    if ds = [] || !ds.all isDigitCh then none
    else some (ds.foldl (fun acc d => acc * 10 + (d.toNat - 48)) 0)
  match l with
  | '-' :: ds => (core ds).map (fun n => -(n : Int))
  | '+' :: ds => (core ds).map (fun n => (n : Int))
  | ds => (core ds).map (fun n => (n : Int))

/-- Python `os.path.dirname`: everything before the last `/`, with trailing
slashes stripped unless the head is all slashes. -/
def dirnameL (p : List Char) : List Char :=
  let head := (p.reverse.dropWhile (fun c => c ≠ '/')).reverse
  if head ≠ [] ∧ ¬(head.all (fun c => c = '/')) then
    (head.reverse.dropWhile (fun c => c = '/')).reverse
  else head

/-- Code-point lexicographic order on strings (Python `<` on `str`). -/
def ltStr : List Char → List Char → Bool
  | [], [] => false
  | [], _ :: _ => true
  | _ :: _, [] => false
  | x :: xs, y :: ys =>
    if x.toNat < y.toNat then true
    else if x.toNat = y.toNat then ltStr xs ys
    else false

/-- Insert into a sorted duplicate-free list, keeping it so. -/
def insertSorted (x : String) : List String → List String
  | [] => [x]
  | y :: ys =>
    if x = y then y :: ys
    else if ltStr x.data y.data then x :: y :: ys
    else y :: insertSorted x ys

/-- Python `sorted(set(l))` for strings. -/
def sortDedup (l : List String) : List String :=
  l.foldl (fun acc x => insertSorted x acc) []

/-- Python `line.split("\t", 1)` when it yields two parts: `none` if the
line has no tab, otherwise (before first tab, after it). -/
def splitTab1 (l : List Char) : Option (List Char × List Char) :=
  match l.dropWhile (fun c => c ≠ '\t') with
  | [] => none
  | _ :: rest => some (l.takeWhile (fun c => c ≠ '\t'), rest)

/-! ## track-metrics.py

The clock, the two git queries and the current contents of the metrics file
are an explicit environment.  A `run_command` result is `(success, stripped
stdout)`, exactly the pair the source helper returns; any exception inside it
yields `(False, "")`.  A JSON line of the metrics file is modelled as its
ordered key/value record.  Filesystem write failures (swallowed by the
top-level `except`) are outside the model. -/

inductive JVal
  | jnull
  | jstr (s : String)
  | jint (n : Int)
deriving DecidableEq

/-- One newline-delimited JSON record, as an ordered key/value list. -/
abbrev JRecord := List (String × JVal)

structure MetricsEnv where
  /-- Result of `datetime.now(timezone.utc).isoformat()`. -/
  isoTimestamp : String
  /-- Result of `run_command(["git", "diff", "--stat", "HEAD"])`. -/
  gitDiffStat : Bool × String
  /-- Result of `run_command(["git", "log", "--oneline", "-1"])`. -/
  gitLog : Bool × String
  /-- The records already in `.claude/agent-metrics.jsonl`. -/
  priorRecords : List JRecord

/-- Source `get_files_changed()`: parse the summary line of `git diff --stat`. -/
def get_files_changed (r : Bool × String) : Int :=
  if !r.1 || r.2 = "" then 0
  else
    let lines := splitOnCh '\n' (stripWs r.2.data)
    match lines.getLast? with
    | none => 0
    | some summary =>
      match (splitOnCh ',' summary).find?
          (fun part => containsL "file".data (stripWs part) &&
                       containsL "changed".data (stripWs part)) with
      | none => 0
      | some part =>
        match splitWsRuns (stripWs part) with
        | [] => 0
        | tok :: _ => (parseIntL tok).getD 0

/-- Source `get_latest_commit()`. -/
def get_latest_commit (r : Bool × String) : String :=
  if r.1 && r.2 ≠ "" then r.2 else ""

/-- The record built by one invocation (`entry` in the source; `json.dumps`
serialises `None` as JSON `null`, keeping the `commit` key present). -/
def metricsEntry (env : MetricsEnv) : JRecord :=
  [("timestamp", JVal.jstr env.isoTimestamp),
   ("files_changed", JVal.jint (get_files_changed env.gitDiffStat)),
   ("commit", if get_latest_commit env.gitLog = "" then JVal.jnull
              else JVal.jstr (get_latest_commit env.gitLog)),
   ("duration_hint", JVal.jstr "completed")]

/-- Function `main` of track-metrics.py: the new contents of the metrics file and the
exit status.  The stdin payload is parsed but unused (parse failure is
already absorbed by the inner `except`), and the exit status is 0 on every
path. -/
def metricsMain (_inp : Option Event) (env : MetricsEnv) : List JRecord × Nat :=
  (env.priorRecords ++ [metricsEntry env], 0)

/-! ## typescript-check.py -/

structure TsEnv where
  /-- Whether `find_tsconfig` located a `tsconfig.json` ancestor (a pure
  filesystem walk, abstracted). -/
  tsconfigFound : Bool
  /-- The `npx tsc --noEmit --pretty` run: `none` for
  `FileNotFoundError`/`TimeoutExpired`, otherwise (returncode, stdout). -/
  tscResult : Option (Int × String)

def TS_EXTENSIONS : List String := [".ts", ".tsx"]

/-- Function `main` of typescript-check.py as (printed lines, exit status); it is
informational only and exits 0 on every path. -/
def tsMain (inp : Option Event) (env : TsEnv) : List String × Nat :=
  match inp with
  | none => ([], 0)
  | some ev =>
    let fp := effPath ev
    if fp = "" then ([], 0)
    else if !TS_EXTENSIONS.contains (lowerStr (splitextStr fp)) then ([], 0)
    else if !env.tsconfigFound then ([], 0)
    else
      match env.tscResult with
      | none => ([], 0)
      | some (rc, out) =>
        if rc ≠ 0 && out ≠ "" then
          (["TypeScript errors found — fix these before committing to maintain type safety:",
            "  File edited: " ++ basenameStr fp,
            (⟨out.data.take 2000⟩ : String)] ++
           (if 2000 < out.data.length then ["  ... (truncated)"] else []) ++
           ["Run " ++ (⟨[squote]⟩ : String) ++ "npx tsc --noEmit" ++ (⟨[squote]⟩ : String) ++
            " locally to see full error output."], 0)
        else ([], 0)

/-! ## suggest-doc-updates.py -/

structure SdEnv where
  /-- Result of `run_command(["git", "diff", "--name-status", "HEAD"])`. -/
  diffNameStatus : Bool × String
  /-- Result of `run_command(["git", "ls-files", "--others", "--exclude-standard"])`. -/
  lsOthers : Bool × String
  /-- Result of `run_command(["git", "ls-files"])`. -/
  lsFiles : Bool × String

/-- Source `get_changed_files()`: tab-separated `git diff --name-status` lines plus
an `A<tab>path` line for each untracked file. -/
def get_changed_files (env : SdEnv) : List String :=
  (if env.diffNameStatus.1 && env.diffNameStatus.2 ≠ "" then
     ((splitOnCh '\n' env.diffNameStatus.2.data).filter
        (fun l => (splitTab1 l).isSome)).map (fun l => (⟨l⟩ : String))
   else []) ++
  (if env.lsOthers.1 && env.lsOthers.2 ≠ "" then
     (splitOnCh '\n' env.lsOthers.2.data).filterMap (fun f =>
       let fs := stripWs f
       if fs = [] then none else some ("A\t" ++ (⟨fs⟩ : String)))
   else [])

/-- First character of a status field is `c` (Python `startswith` on the
one-letter git statuses used here). -/
def statusHead (st : List Char) (c : Char) : Bool :=
  match st with
  | [] => false
  | d :: _ => d = c

/-- Source `detect_new_directories(changed_files)`. -/
def detect_new_directories (changed : List String) : List String :=
  sortDedup (changed.filterMap (fun e =>
    match splitTab1 e.data with
    | none => none
    | some (st, fp) =>
      if statusHead st 'A' || statusHead st '?' then
        let d := dirnameL fp
        if d ≠ [] then some (⟨d⟩ : String) else none
      else none))

/-- Source `detect_new_file_types(changed_files)`. -/
def detect_new_file_types (env : SdEnv) (changed : List String) : List String :=
  let existing : List String :=
    if env.lsFiles.1 && env.lsFiles.2 ≠ "" then
      (splitOnCh '\n' env.lsFiles.2.data).filterMap (fun f =>
        let e := splitextL f
        if e ≠ [] then some (⟨e⟩ : String) else none)
    else []
  sortDedup (changed.filterMap (fun entry =>
    match splitTab1 entry.data with
    | none => none
    | some (st, fp) =>
      if statusHead st 'A' || statusHead st '?' then
        let e := splitextL fp
        if e ≠ [] && !existing.contains (⟨e⟩ : String) then some (⟨e⟩ : String) else none
      else none))

/-- Source `detect_deleted_files(changed_files)`. -/
def detect_deleted_files (changed : List String) : List String :=
  changed.filterMap (fun entry =>
    match splitTab1 entry.data with
    | none => none
    | some (st, fp) => if statusHead st 'D' then some (⟨fp⟩ : String) else none)

/-- The `config_patterns` table of `detect_config_changes`. -/
def CONFIG_PATTERNS : List String :=
  ["package.json", "tsconfig.json", "pyproject.toml", "Cargo.toml", "go.mod",
   "Makefile", "Dockerfile", "docker-compose.yml", "docker-compose.yaml",
   ".eslintrc", ".prettierrc", "webpack.config", "vite.config", "next.config",
   "tailwind.config", "jest.config", "vitest.config", ".env.example",
   "requirements.txt", "setup.py", "setup.cfg"]

/-- Source `detect_config_changes(changed_files)`. -/
def detect_config_changes (changed : List String) : List String :=
  changed.filterMap (fun entry =>
    match splitTab1 entry.data with
    | none => none
    | some (_, fp) =>
      let b := basenameL fp
      if CONFIG_PATTERNS.any (fun pat => (⟨b⟩ : String) = pat || pat.data.isPrefixOf b) then
        some (⟨fp⟩ : String)
      else none)

/-- Dict `type_labels` with its `.get(ext, ext)` lookup. -/
def typeLabel (ext : String) : String :=
  (([(".rs", "Rust"), (".go", "Go"), (".py", "Python"), (".ts", "TypeScript"),
     (".tsx", "React/TSX"), (".jsx", "React/JSX"), (".vue", "Vue"),
     (".svelte", "Svelte"), (".rb", "Ruby"), (".java", "Java"), (".kt", "Kotlin"),
     (".swift", "Swift"), (".c", "C"), (".cpp", "C++"), (".zig", "Zig")]
      : List (String × String)).find? (fun q => q.1 = ext)).elim ext (fun q => q.2)

/-- A single-quoted fragment (the messages quote paths with `\x27`). -/
def squoted (s : String) : String := (⟨[squote]⟩ : String) ++ s ++ (⟨[squote]⟩ : String)

/-- Function `main` of suggest-doc-updates.py as (stderr lines, exit status); the
stdin payload is deliberately unused and the exit status is 0 on every
path. -/
def sdMain (_inp : Option Event) (env : SdEnv) : List String × Nat :=
  let changed := get_changed_files env
  if changed.isEmpty then ([], 0)
  else
    let sug1 := (detect_new_directories changed).map (fun d =>
      let dn := if d.data.contains '/' then (⟨basenameL d.data⟩ : String) else d
      "  - New directory " ++ squoted (d ++ "/") ++ " created -> Document " ++ dn ++
        " architecture in CLAUDE.md")
    let sug2 := (detect_new_file_types env changed).map (fun ext =>
      "  - New file type " ++ squoted ext ++ " (" ++ typeLabel ext ++
        ") introduced -> Update stack info in CLAUDE.md")
    let deleted := detect_deleted_files changed
    let sug3 :=
      if deleted.isEmpty then []
      else if deleted.length ≤ 3 then
        deleted.map (fun f => "  - " ++ squoted f ++ " deleted -> Check if removed feature needs doc cleanup")
      else ["  - " ++ toString deleted.length ++ " files deleted -> Review docs for removed features"]
    let sug4 := (detect_config_changes changed).map (fun cfg =>
      "  - " ++ basenameStr cfg ++ " modified -> Update project dependencies/config section")
    let sug5 :=
      if 10 < changed.length then
        ["  - " ++ toString changed.length ++ " files changed -> Consider running /project-starter:save-session-learnings"]
      else []
    let suggestions := sug1 ++ sug2 ++ sug3 ++ sug4 ++ sug5
    if suggestions.isEmpty then ([], 0)
    else ("\nDocumentation update suggested:" :: suggestions ++ [""], 0)

/-! ## Claim-support definitions -/

/-- Predicate: `needle` occurs as a contiguous substring of `hay` (declarative form). -/
def SubstrIn (needle hay : List Char) : Prop :=
  ∃ a b, hay = a ++ needle ++ b

/-- The eligibility filter exactly as §4.1 of the spec words it, for
comparison with the implemented `should_skip`: extension in the fixed
exemption set, OR the filename (case-insensitive) contains "test" or
"spec", OR the path contains a segment "tests", "test", "__tests__" or
"examples", OR the basename exactly matches the env-file allow-list. -/
def specExemptFour (p : String) : Bool :=
  SKIP_EXTENSIONS.contains (lowerStr (splitextStr p)) ||
  (containsStr "test" (lowerStr (basenameStr p)) ||
   containsStr "spec" (lowerStr (basenameStr p))) ||
  ((splitOnCh '/' p.data).any (fun seg =>
    (["tests", "test", "__tests__", "examples"] : List String).contains (⟨seg⟩ : String))) ||
  ([".env.example", ".env.template", ".env.sample"] : List String).contains (basenameStr p)

/-- A metrics record shaped as the spec describes it: timestamp string,
integer files_changed, a commit key that is a string OR ABSENT, and the
fixed duration_hint — with the keys in the layout the spec lists. -/
def specRecordOK (ts : String) (r : JRecord) : Prop :=
  (∃ n c, r = [("timestamp", JVal.jstr ts), ("files_changed", JVal.jint n),
               ("commit", JVal.jstr c), ("duration_hint", JVal.jstr "completed")]) ∨
  (∃ n, r = [("timestamp", JVal.jstr ts), ("files_changed", JVal.jint n),
             ("duration_hint", JVal.jstr "completed")])

/-- An edit of `.env.production` (the end-to-end scenario of the spec). -/
def evC1 : Event := ⟨none, ⟨some ".env.production", some "SECRET=1", none, none⟩⟩

/-- Secret-bearing content behind a path the security filter exempts. -/
def evC2 : Event := ⟨none, ⟨some "test.py", some "api_key: \"abcdefghijklmnopqrstu\"", none, none⟩⟩

/-- Secret-bearing content behind a scanned path. -/
def evC2w : Event := ⟨none, ⟨some "config.yaml", some "api_key: \"abcdefghijklmnopqrstu\"", none, none⟩⟩

/-- An exempt path (test file) with both secret and marker content. -/
def evC5 : Event := ⟨some "Write", ⟨some "utils_test.py", some "api_key: \"abcdefghijklmnopqrstu\" FIXME", none, none⟩⟩

/-- A path matching both a blocking pattern (`**/secrets/*`) and a warning
pattern (`**/production/*`). -/
def evC6 : Event := ⟨none, ⟨some "app/production/secrets/key", some "x", none, none⟩⟩

/-- Content of 512001 letters `a`: one byte over the 500 KiB limit, matching no debug
or marker pattern. -/
def bigA : List Char := List.replicate 512001 'a'

/-- A non-exempt source path carrying `bigA` as content. -/
def evC7 : Event := ⟨none, ⟨some "src/big.py", some (⟨bigA⟩ : String), none, none⟩⟩

/-- Two events equal in `file_path`/`content`/`new_string` but different in
the unused fields. -/
def evC8a : Event := ⟨some "Write", ⟨some "a.py", some "print(1)", none, some "old"⟩⟩

def evC8b : Event := ⟨none, ⟨some "a.py", some "print(1)", none, none⟩⟩

/-- A metrics environment in which git reports one changed file and no
commit. -/
def envC9 : MetricsEnv :=
  ⟨"2025-06-01T12:00:00+00:00", (true, " 1 file changed, 1 insertion(+)"), (false, ""), []⟩

/-- Empty effective content behind a path that matches a blocking pattern. -/
def evC10a : Event := ⟨none, ⟨some "package-lock.json", none, some "", none⟩⟩

/-- Secret-bearing content with no file path at all. -/
def evC10b : Event := ⟨none, ⟨none, some "api_key: \"abcdefghijklmnopqrstu\"", none, none⟩⟩

/-! ## General lemmas -/

/-- Round-trip of `String.mk` and `String.data`. -/
theorem data_mk (l : List Char) : (⟨l⟩ : String).data = l := rfl

/-- A positional scan succeeds exactly when the matcher accepts some suffix. -/
theorem existsAt_iff (m : List Char → Bool) (h : List Char) :
    existsAt m h = true ↔ ∃ t, t <:+ h ∧ m t = true := by
  induction h with
  | nil =>
    simp only [existsAt, List.suffix_nil]
    exact ⟨fun hm => ⟨[], rfl, hm⟩, fun ⟨t, ht, hm⟩ => ht ▸ hm⟩
  | cons c cs ih =>
    simp only [existsAt, Bool.or_eq_true, ih, List.suffix_cons_iff]
    constructor
    · rintro (hm | ⟨t, ht, hm⟩)
      · exact ⟨c :: cs, Or.inl rfl, hm⟩
      · exact ⟨t, Or.inr ht, hm⟩
    · rintro ⟨t, rfl | ht, hm⟩
      · exact Or.inl hm
      · exact Or.inr ⟨t, ht, hm⟩

/-- The executable substring test agrees with the declarative one. -/
theorem containsL_iff (n h : List Char) : containsL n h = true ↔ SubstrIn n h := by
  rw [containsL, existsAt_iff]
  constructor
  · rintro ⟨t, ⟨a, rfl⟩, hp⟩
    rcases List.isPrefixOf_iff_prefix.mp hp with ⟨b, rfl⟩
    exact ⟨a, b, by simp⟩
  · rintro ⟨a, b, rfl⟩
    exact ⟨n ++ b, ⟨a, by simp⟩, List.isPrefixOf_iff_prefix.mpr ⟨b, rfl⟩⟩

/-- String-level version of `containsL_iff`. -/
theorem containsStr_iff (n h : String) : containsStr n h = true ↔ SubstrIn n.data h.data :=
  containsL_iff n.data h.data

/-! ## C1 -/

/-- C1: the spec demands that an edit of `.env.production` is BLOCKED with
exit status 2, and the hook pattern table itself lists `.env.production` as
protected — but `"...".lstrip("./")` removes the leading dot as a character
set, so `matches_pattern` sees `env.production`, no pattern matches, and the
hook prints nothing and exits 0.  The code contradicts its own
configuration: this is a code bug, witnessed here. -/
theorem c1_env_production_not_blocked :
    PROTECTED_PATTERNS.contains ".env.production" = true ∧
    lstripDotSlash ".env.production".data = "env.production".data ∧
    protectMain (some evC1) = ([], 0) := by
  decide

/-! ## C6 -/

/-- C6: in protect-files.py, BLOCK takes precedence over WARN — whenever any
blocking pattern matches the (non-empty) path, the output is the BLOCKED
report and the exit status is 2; the warning rules are never consulted. -/
theorem c6_block_precedence (ev : Event) (pat : String)
    (hfp : effPath ev ≠ "")
    (hm : matches_pattern (effPath ev) PROTECTED_PATTERNS = some pat) :
    protectMain (some ev) = (protectBlockLines (effPath ev) pat, 2) := by
  simp [protectMain, hfp, hm]

/-- Witness for C6 at a path matching both a blocking and a warning
pattern: the blocking report wins. -/
theorem c6_block_precedence_witness :
    matches_pattern (effPath evC6) PROTECTED_PATTERNS = some "**/secrets/*" ∧
    matches_pattern (effPath evC6) WARN_PATTERNS = some "**/production/*" ∧
    protectMain (some evC6) = (protectBlockLines (effPath evC6) "**/secrets/*", 2) :=
  ⟨by decide, by decide,
   c6_block_precedence evC6 "**/secrets/*" (by decide) (by decide)⟩

/-! ## C8 -/

/-- C8: each of the three content/path classifiers is a pure function of
`file_path`, `content` and `new_string` — two events agreeing on those
fields (whatever their other fields) give the identical finding lines and
the identical exit status. -/
theorem c8_pure_function (e1 e2 : Event)
    (hp : e1.tool_input.file_path = e2.tool_input.file_path)
    (hc : e1.tool_input.content = e2.tool_input.content)
    (hn : e1.tool_input.new_string = e2.tool_input.new_string) :
    securityMain (some e1) = securityMain (some e2) ∧
    precommitMain (some e1) = precommitMain (some e2) ∧
    protectMain (some e1) = protectMain (some e2) := by
  have hep : effPath e1 = effPath e2 := by simp [effPath, hp]
  have hec : effContent e1 = effContent e2 := by simp [effContent, hc, hn]
  refine ⟨?_, ?_, ?_⟩
  · simp only [securityMain, hep, hec]
  · simp only [precommitMain, hep, hec]
  · simp only [protectMain, hep]

/-- Witness for C8: two events differing in `tool_name` and `old_string`
but agreeing on the consulted fields classify identically. -/
theorem c8_pure_function_witness :
    evC8a.tool_name ≠ evC8b.tool_name ∧
    evC8a.tool_input.old_string ≠ evC8b.tool_input.old_string ∧
    securityMain (some evC8a) = securityMain (some evC8b) ∧
    precommitMain (some evC8a) = precommitMain (some evC8b) ∧
    protectMain (some evC8a) = protectMain (some evC8b) :=
  ⟨by decide, by decide, c8_pure_function evC8a evC8b rfl rfl rfl⟩

/-! ## C10 -/

/-- C10: when both content fields are empty or absent, security-check and
pre-commit-check exit 0 with no output, whatever the path; security-check
does the same whenever the path is empty or absent. -/
theorem c10_empty_content_allows (ev : Event) :
    ((ev.tool_input.content.getD "" = "" ∧ ev.tool_input.new_string.getD "" = "") →
      securityMain (some ev) = ([], 0) ∧ precommitMain (some ev) = ([], 0)) ∧
    (ev.tool_input.file_path.getD "" = "" → securityMain (some ev) = ([], 0)) := by
  constructor
  · rintro ⟨h1, h2⟩
    have hc : effContent ev = "" := by simp [effContent, pyOr, h1, h2]
    constructor
    · simp [securityMain, hc]
    · simp [precommitMain, hc]
  · intro h
    have hp : effPath ev = "" := h
    simp [securityMain, hp]

/-- Witness for C10: no content behind `package-lock.json` (a protected
pattern) is silently allowed; a secret with no path is silently allowed. -/
theorem c10_empty_content_allows_witness :
    (matches_pattern (effPath evC10a) PROTECTED_PATTERNS).isSome = true ∧
    securityMain (some evC10a) = ([], 0) ∧
    precommitMain (some evC10a) = ([], 0) ∧
    securityMain (some evC10b) = ([], 0) :=
  ⟨by decide,
   ((c10_empty_content_allows evC10a).1 ⟨rfl, rfl⟩).1,
   ((c10_empty_content_allows evC10a).1 ⟨rfl, rfl⟩).2,
   (c10_empty_content_allows evC10b).2 rfl⟩

/-! ## C2 -/

/-- C2 counterexample: content matching the API-key blocking pattern behind
the path `test.py` — the claim demands BLOCK and exit 2 for every event with
matching content, but the classifier exempts the path and exits 0 with no
output. -/
theorem c2_counterexample :
    existsAt apiKeyAt (effContent evC2).data = true ∧
    SECRET_PATTERNS.any (fun t => existsAt t.1 (effContent evC2).data) = true ∧
    securityMain (some evC2) = ([], 0) := by
  decide

/-- C2 (amended): for every event with a non-empty path that the security
filter does not exempt and non-empty content matching at least one secret
pattern, the classifier prints the finding report and exits 2. -/
theorem c2_secret_blocks (ev : Event)
    (hfp : effPath ev ≠ "") (hc : effContent ev ≠ "")
    (h1 : SKIP_FILES.contains (basenameStr (effPath ev)) = false)
    (h2 : containsStr "test" (lowerStr (effPath ev)) = false)
    (h3 : containsStr "spec" (lowerStr (effPath ev)) = false)
    (hm : SECRET_PATTERNS.any (fun t => existsAt t.1 (effContent ev).data) = true) :
    securityMain (some ev) =
      (securityBlockLines (effPath ev) (check_for_secrets (effContent ev) (effPath ev)), 2) ∧
    check_for_secrets (effContent ev) (effPath ev) ≠ [] := by
  have hne : check_for_secrets (effContent ev) (effPath ev) ≠ [] := by
    rcases List.any_eq_true.mp hm with ⟨t, htm, hmt⟩
    have hf : t ∈ SECRET_PATTERNS.filter (fun t => existsAt t.1 (effContent ev).data) :=
      List.mem_filter.mpr ⟨htm, hmt⟩
    simp only [check_for_secrets, h1, h2, h3, Bool.false_eq_true, if_false, Bool.or_self,
      ne_eq, List.map_eq_nil_iff]
    exact List.ne_nil_of_mem hf
  refine ⟨?_, hne⟩
  simp [securityMain, hfp, hc, hne]

/-- Witness for C2 (amended) at path `config.yaml` with API-key content. -/
theorem c2_secret_blocks_witness :
    SECRET_PATTERNS.any (fun t => existsAt t.1 (effContent evC2w).data) = true ∧
    securityMain (some evC2w) =
      (securityBlockLines (effPath evC2w) (check_for_secrets (effContent evC2w) (effPath evC2w)), 2) :=
  ⟨by decide,
   (c2_secret_blocks evC2w (by decide) (by decide) (by decide) (by decide) (by decide)
     (by decide)).1⟩

/-! ## C5 -/

/-- C5: an event whose path the eligibility filter exempts produces no
findings, whatever the content: check_for_secrets returns `[]` and
security-check allows silently; pre-commit-check allows silently. -/
theorem c5_exempt_no_findings (ev : Event) :
    ((SKIP_FILES.contains (basenameStr (effPath ev)) = true ∨
      containsStr "test" (lowerStr (effPath ev)) = true ∨
      containsStr "spec" (lowerStr (effPath ev)) = true) →
      check_for_secrets (effContent ev) (effPath ev) = [] ∧
      securityMain (some ev) = ([], 0)) ∧
    (should_skip (effPath ev) = true → precommitMain (some ev) = ([], 0)) := by
  constructor
  · intro h
    have hcfs : check_for_secrets (effContent ev) (effPath ev) = [] := by
      unfold check_for_secrets
      rcases h with h | h | h
      · rw [if_pos h]
      · by_cases hb : SKIP_FILES.contains (basenameStr (effPath ev)) = true
        · rw [if_pos hb]
        · rw [if_neg hb, if_pos (show (containsStr "test" (lowerStr (effPath ev)) ||
            containsStr "spec" (lowerStr (effPath ev))) = true from by rw [h]; rfl)]
      · by_cases hb : SKIP_FILES.contains (basenameStr (effPath ev)) = true
        · rw [if_pos hb]
        · rw [if_neg hb, if_pos (show (containsStr "test" (lowerStr (effPath ev)) ||
            containsStr "spec" (lowerStr (effPath ev))) = true from by rw [h, Bool.or_true])]
    refine ⟨hcfs, ?_⟩
    by_cases hg : effPath ev = "" ∨ effContent ev = ""
    · simp [securityMain, hg]
    · simp [securityMain, hg, hcfs]
  · intro h
    have hfp : effPath ev ≠ "" := by
      intro he
      rw [he] at h
      exact absurd h (by decide)
    by_cases hcl : effContent ev = ""
    · simp [precommitMain, hcl]
    · simp [precommitMain, hcl, hfp, h]

/-- Witness for C5: a test-named path with secret and FIXME content is
allowed by both classifiers with no findings. -/
theorem c5_exempt_no_findings_witness :
    containsStr "test" (lowerStr (effPath evC5)) = true ∧
    existsAt apiKeyAt (effContent evC5).data = true ∧
    searchB (wordBothAt "FIXME") none (effContent evC5).data = true ∧
    check_for_secrets (effContent evC5) (effPath evC5) = [] ∧
    securityMain (some evC5) = ([], 0) ∧
    precommitMain (some evC5) = ([], 0) :=
  ⟨by decide, by decide, by decide,
   ((c5_exempt_no_findings evC5).1 (Or.inr (Or.inl (by decide)))).1,
   ((c5_exempt_no_findings evC5).1 (Or.inr (Or.inl (by decide)))).2,
   (c5_exempt_no_findings evC5).2 (by decide)⟩

/-! ## C4 -/

/-- C4 counterexample: `.env.template` satisfies the fourth of the OR-combined
spec conditions (env-file allow-list), yet `should_skip` — the
quality-check eligibility filter the claim points at — does not exempt it:
the env allow-list lives in the security classifier, not in `should_skip`.
(`.env.example` is exempted only by accident, through the `example`
substring rule.) -/
theorem c4_counterexample :
    specExemptFour ".env.template" = true ∧ should_skip ".env.template" = false := by
  decide

/-- C4 (amended): `should_skip` returns exempt exactly when the lowercased
extension is in the fixed exemption set, or the lowercased basename contains
"test" or "spec", or the lowercased path contains "/tests/", "/test/" or
"/__tests__/" as a substring, or the lowercased path contains "example" or
"/examples/" as a substring; the empty (absent) path is never exempt. -/
theorem c4_should_skip_characterization :
    (∀ p : String, should_skip p = true ↔
      (lowerStr (splitextStr p) ∈ SKIP_EXTENSIONS ∨
       SubstrIn "test".data (lowerL (basenameL p.data)) ∨
       SubstrIn "spec".data (lowerL (basenameL p.data)) ∨
       SubstrIn "/tests/".data (lowerL p.data) ∨
       SubstrIn "/test/".data (lowerL p.data) ∨
       SubstrIn "/__tests__/".data (lowerL p.data) ∨
       SubstrIn "example".data (lowerL p.data) ∨
       SubstrIn "/examples/".data (lowerL p.data))) ∧
    should_skip "" = false := by
  refine ⟨?_, by decide⟩
  intro p
  have hb : (lowerStr (basenameStr p)).data = lowerL (basenameL p.data) := rfl
  have hp : (lowerStr p).data = lowerL p.data := rfl
  simp only [should_skip, Bool.or_eq_true, containsStr, hb, hp, containsL_iff,
    List.contains, List.elem_iff]
  tauto

/-! ## C7 -/

/-- A boundary-aware matcher that rejects at every all-`a` position rejects
the whole all-`a` string. -/
theorem searchB_const_false (m : Option Char → List Char → Bool)
    (hm : ∀ prev s, m prev ('a' :: s) = false) (hm0 : ∀ prev, m prev [] = false) :
    ∀ prev n, searchB m prev (List.replicate n 'a') = false := by
  intro prev n
  induction n generalizing prev with
  | zero => exact hm0 prev
  | succ k ih => simp [List.replicate_succ, searchB, hm, ih]

/-- The UTF-8 length of `n` letters `a` is `n`. -/
theorem utf8Len_replicate_a (n : Nat) : utf8Len (List.replicate n 'a') = n := by
  induction n with
  | zero => rfl
  | succ k ih =>
    simp only [List.replicate_succ, utf8Len, List.map_cons, List.sum_cons] at ih ⊢
    rw [show utf8Bytes 'a' = 1 from rfl]
    omega

/-- C7: a non-exempt event whose content exceeds 500 KiB of UTF-8 and
matches no debug or marker rule yields exactly the one size finding — with
the size reported as `bytes / 1024` KB against the 500KB limit — and exit
status 0 (a warning, not a block). -/
theorem c7_large_content_warns (ev : Event)
    (hskip : effPath ev = "" ∨ should_skip (effPath ev) = false)
    (hd : ∀ t ∈ DEBUG_PATTERNS, searchB t.1 none (effContent ev).data = false)
    (ht : ∀ t ∈ TEMP_MARKERS, searchB t.1 none (effContent ev).data = false)
    (hsize : MAX_CONTENT_SIZE < utf8Len (effContent ev).data) :
    precommitMain (some ev) =
      (["Quality check - issues detected:",
        "  - " ++ largeMsg (utf8Len (effContent ev).data),
        "\nConsider resolving before committing."], 0) := by
  have hc : effContent ev ≠ "" := by
    intro he
    rw [he] at hsize
    exact absurd hsize (by decide)
  have hcc : check_content (effContent ev) = [largeMsg (utf8Len (effContent ev).data)] := by
    unfold check_content
    rw [List.filter_eq_nil_iff.mpr (fun t htm => by rw [hd t htm]; exact Bool.false_ne_true),
        List.filter_eq_nil_iff.mpr (fun t htm => by rw [ht t htm]; exact Bool.false_ne_true),
        if_pos hsize]
    rfl
  have hnskip : ¬(effPath ev ≠ "" ∧ should_skip (effPath ev) = true) := by
    rcases hskip with h | h
    · exact fun hcon => hcon.1 h
    · exact fun hcon => by rw [h] at hcon; exact Bool.false_ne_true hcon.2
  simp [precommitMain, hc, hnskip, hcc]

/-- Witness for C7: 512001 letters `a` behind `src/big.py` produce exactly
the 500KB-limit warning with exit 0. -/
theorem c7_large_content_warns_witness :
    should_skip (effPath evC7) = false ∧
    MAX_CONTENT_SIZE < utf8Len (effContent evC7).data ∧
    precommitMain (some evC7) =
      (["Quality check - issues detected:",
        "  - " ++ largeMsg (utf8Len (effContent evC7).data),
        "\nConsider resolving before committing."], 0) := by
  have hdata : (effContent evC7).data = List.replicate 512001 'a' := rfl
  have hsize : MAX_CONTENT_SIZE < utf8Len (effContent evC7).data := by
    rw [hdata, utf8Len_replicate_a]
    decide
  refine ⟨by decide, hsize, ?_⟩
  refine c7_large_content_warns evC7 (Or.inr (by decide)) ?_ ?_ hsize
  · intro t htm
    rw [hdata]
    simp only [DEBUG_PATTERNS, List.mem_cons, List.not_mem_nil, or_false] at htm
    rcases htm with rfl | rfl | rfl | rfl | rfl
    all_goals exact searchB_const_false _ (fun _ _ => rfl) (fun _ => rfl) none 512001
  · intro t htm
    rw [hdata]
    simp only [TEMP_MARKERS, List.mem_cons, List.not_mem_nil, or_false] at htm
    rcases htm with rfl | rfl | rfl
    all_goals exact searchB_const_false _ (fun _ _ => rfl) (fun _ => rfl) none 512001

/-! ## C9 -/

/-- C9 counterexample: when git reports no commit, the appended record still
carries the `commit` key, bound to JSON `null` — the record is not of the
claimed shape "commit: string, or key absent". -/
theorem c9_counterexample :
    (metricsMain none envC9).1 = [metricsEntry envC9] ∧
    ¬ specRecordOK envC9.isoTimestamp (metricsEntry envC9) := by
  constructor
  · rfl
  · have hent : metricsEntry envC9 =
        [("timestamp", JVal.jstr "2025-06-01T12:00:00+00:00"),
         ("files_changed", JVal.jint 1),
         ("commit", JVal.jnull),
         ("duration_hint", JVal.jstr "completed")] := by decide
    rw [hent]
    rintro (⟨n, c, h⟩ | ⟨n, h⟩) <;> simp [envC9] at h

/-- C9 (amended): each invocation appends exactly one record to the metrics
file — the prior records are preserved unchanged as a prefix — and the
record is (timestamp from the UTC clock, integer files_changed, a commit
value that is a non-empty string or JSON null with the key always present,
and the fixed duration_hint "completed"); the exit status is 0. -/
theorem c9_appends_one_record (inp : Option Event) (env : MetricsEnv) :
    (metricsMain inp env).2 = 0 ∧
    (metricsMain inp env).1.take env.priorRecords.length = env.priorRecords ∧
    (metricsMain inp env).1.length = env.priorRecords.length + 1 ∧
    ∃ n cm,
      (metricsMain inp env).1.getLast? =
        some [("timestamp", JVal.jstr env.isoTimestamp),
              ("files_changed", JVal.jint n),
              ("commit", cm),
              ("duration_hint", JVal.jstr "completed")] ∧
      (cm = JVal.jnull ∨ ∃ s, s ≠ "" ∧ cm = JVal.jstr s) := by
  refine ⟨rfl, List.take_left _ _, by simp [metricsMain], ?_⟩
  refine ⟨get_files_changed env.gitDiffStat,
    if get_latest_commit env.gitLog = "" then JVal.jnull
    else JVal.jstr (get_latest_commit env.gitLog), ?_, ?_⟩
  · show (env.priorRecords ++ [metricsEntry env]).getLast? = _
    rw [List.getLast?_concat]
    exact rfl
  · by_cases h : get_latest_commit env.gitLog = ""
    · exact Or.inl (by rw [if_pos h])
    · exact Or.inr ⟨get_latest_commit env.gitLog, h, by rw [if_neg h]⟩

/-! ## C3 -/

/-- C3: fail-open.  On malformed stdin every classifier exits 0 with no
blocking output; suggest-doc-updates, track-metrics, typescript-check and
pre-commit-check exit 0 on every input whatsoever; and an exit status of 2
can arise only from an explicit successful pattern match — a secret pattern
matching the content (security-check) or a protected pattern matching the
path (protect-files). -/
theorem c3_fail_open :
    (securityMain none = ([], 0) ∧ precommitMain none = ([], 0) ∧
     protectMain none = ([], 0) ∧ ∀ env : TsEnv, tsMain none env = ([], 0)) ∧
    (∀ (inp : Option Event) (env : SdEnv), (sdMain inp env).2 = 0) ∧
    (∀ (inp : Option Event) (env : MetricsEnv), (metricsMain inp env).2 = 0) ∧
    (∀ (inp : Option Event) (env : TsEnv), (tsMain inp env).2 = 0) ∧
    (∀ inp : Option Event, (precommitMain inp).2 = 0) ∧
    (∀ inp : Option Event, (securityMain inp).2 = 2 →
      ∃ ev, inp = some ev ∧ ∃ t ∈ SECRET_PATTERNS, existsAt t.1 (effContent ev).data = true) ∧
    (∀ inp : Option Event, (protectMain inp).2 = 2 →
      ∃ ev pat, inp = some ev ∧ matches_pattern (effPath ev) PROTECTED_PATTERNS = some pat) := by
  refine ⟨⟨rfl, rfl, rfl, fun _ => rfl⟩, ?_, fun _ _ => rfl, ?_, ?_, ?_, ?_⟩
  · intro inp env
    simp only [sdMain]
    repeat' split
    all_goals rfl
  · intro inp env
    rcases inp with _ | ev
    · rfl
    · simp only [tsMain]
      repeat' split
      all_goals rfl
  · intro inp
    rcases inp with _ | ev
    · rfl
    · simp only [precommitMain]
      repeat' split
      all_goals rfl
  · intro inp h
    rcases inp with _ | ev
    · exact absurd h (by decide)
    · simp only [securityMain] at h
      split at h
      · exact absurd h (by decide)
      · split at h
        · exact absurd h (by decide)
        · rename_i hne
          refine ⟨ev, rfl, ?_⟩
          unfold check_for_secrets at hne
          split at hne
          · exact absurd rfl hne
          · split at hne
            · exact absurd rfl hne
            · have hf : SECRET_PATTERNS.filter
                  (fun t => existsAt t.1 (effContent ev).data) ≠ [] :=
                fun hfil => hne (by rw [hfil]; rfl)
              obtain ⟨t, htf⟩ := List.exists_mem_of_ne_nil _ hf
              obtain ⟨htm, hpt⟩ := List.mem_filter.mp htf
              exact ⟨t, htm, by simpa using hpt⟩
  · intro inp h
    rcases inp with _ | ev
    · exact absurd h (by decide)
    · simp only [protectMain] at h
      split at h
      · exact absurd h (by decide)
      · split at h
        · rename_i pat hm
          exact ⟨ev, pat, rfl, hm⟩
        · split at h
          · simp at h
          · simp at h

/-- Witness for C3: an actual exit status 2 of security-check comes with a
matching secret pattern. -/
theorem c3_fail_open_witness :
    (securityMain (some evC2w)).2 = 2 ∧
    ∃ ev, (some evC2w : Option Event) = some ev ∧
      ∃ t ∈ SECRET_PATTERNS, existsAt t.1 (effContent ev).data = true :=
  ⟨by decide, c3_fail_open.2.2.2.2.2.1 (some evC2w) (by decide)⟩
